import Mathlib

/-!
Shallow embedding of the tabular cleaning / filtering / aggregation layer of
the breast-cancer dashboard repository (src/utils/prep.py, src/sections/overview.py,
src/sections/deep_dives.py, src/sections/conclusion.py), together with theorems
settling the specification claims about it.

Python strings are modelled as `List Char`; pandas tables as Lean lists of typed
row structures (for the post-cleaning sections) or as a raw table with a dynamic
column list (for the prep-layer cleaners, whose missing-column behaviour is at
issue).  Numeric cells are `Option ℚ` (`none` models NaN / pd.NA); fallible
pandas operations (column lookup on an absent column) return `Except`.
-/

/-! ## String utilities (model of the `str` / `re` operations used by the code) -/

/-- Uppercase every character, modelling Python `str.upper` on ASCII data. -/
def upperL (l : List Char) : List Char := l.map Char.toUpper

/-- Strip leading and trailing whitespace, modelling Python `str.strip`. -/
def trimL (l : List Char) : List Char :=
  ((l.dropWhile Char.isWhitespace).reverse.dropWhile Char.isWhitespace).reverse

/-- The `s.strip().upper()` normalisation both canonicalizers start with. -/
def trimUpper (l : List Char) : List Char := upperL (trimL l)

/-- Does `w` occur at the very start of `u`?  (prefix test). -/
def leadMatch : List Char → List Char → Bool
  | [], _ => true
  | _ :: _, [] => false
  | a :: w, b :: u => decide (a = b) && leadMatch w u

/-- Does `w` occur somewhere inside `u`?  Models Python `w in u` and an
unanchored `re.search` for a plain literal. -/
def containsSeq (w : List Char) : List Char → Bool
  | [] => leadMatch w []
  | c :: t => leadMatch w (c :: t) || containsSeq w t

/-- Python regex word character (`\w`): alphanumeric or underscore. -/
def wordChar (c : Char) : Bool := c.isAlphanum || decide (c = '_')

/-- The position right after a match is a `\b` boundary: end of string or a
non-word character. -/
def afterOk : List Char → Bool
  | [] => true
  | c :: _ => !wordChar c

/-- `w` matches at the start of `u` and is followed by a word boundary. -/
def endBoundMatch (w u : List Char) : Bool := leadMatch w u && afterOk (u.drop w.length)

/-- `re.search(r"(w1|w2|...)\b", u)`: some alternative occurs in `u` followed by
a word boundary. -/
def searchEnd (ws : List (List Char)) : List Char → Bool
  | [] => ws.any (fun w => endBoundMatch w [])
  | c :: t => ws.any (fun w => endBoundMatch w (c :: t)) || searchEnd ws t

/-- Helper for `searchBoth`: `pw` records whether the previous character was a
word character (so that `\b` holds before the current position iff `!pw`). -/
def searchBothAux (ws : List (List Char)) : Bool → List Char → Bool
  | pw, [] => !pw && ws.any (fun w => endBoundMatch w [])
  | pw, c :: t =>
    (!pw && ws.any (fun w => endBoundMatch w (c :: t))) || searchBothAux ws (wordChar c) t

/-- `re.search(r"\b(w1|w2|...)\b", u)`: some alternative occurs with word
boundaries on both sides. -/
def searchBoth (ws : List (List Char)) (u : List Char) : Bool := searchBothAux ws false u

/-! ## The two quintile canonicalizers

`_canon_quintile` in src/sections/overview.py (module level) and the nested
`_canon_quintile` in `_normalize_income` of src/sections/deep_dives.py.  Both
take a possibly-NaN cell (`Option String`), strip/upper it, try the exact
`^Q(U)?([1-5])$` match, then the single-digit match, then keyword rules.  The
keyword rules differ: the overview version uses word-boundary regex searches
with the full words LOWEST/HIGHEST, the deep-dives version uses plain Python
substring tests with LOW/HIGH. -/

/-- The digits accepted by `[1-5]`. -/
def dig15 (c : Char) : Bool :=
  decide (c = '1') || decide (c = '2') || decide (c = '3') || decide (c = '4') || decide (c = '5')

/-- `re.match(r"^Q(U)?([1-5])$", s)`, returning the captured digit. -/
def quintExact : List Char → Option Char
  | ['Q', c] => if dig15 c then some c else none
  | ['Q', 'U', c] => if dig15 c then some c else none
  | _ => none

/-- `re.fullmatch(r"[1-5]", s)`, returning the digit. -/
def digit15 : List Char → Option Char
  | [c] => if dig15 c then some c else none
  | _ => none

/-- Build the label `Q<d>` from a digit character. -/
def qLab (c : Char) : String := String.mk ['Q', c]

/-- Keyword cascade of the overview `_canon_quintile` (word-boundary regexes). -/
def canonKeyO (u : List Char) : Option String :=
  if searchEnd ["LOWEST".data, "FIRST".data, "BOTTOM".data] u then some "Q1"
  else if searchBoth ["SECOND".data] u then some "Q2"
  else if searchBoth ["THIRD".data] u then some "Q3"
  else if searchBoth ["FOURTH".data] u then some "Q4"
  else if searchEnd ["HIGHEST".data, "FIFTH".data, "TOP".data] u then some "Q5"
  else none

/-- Keyword cascade of the deep-dives `_canon_quintile` (plain substring tests). -/
def canonKeyD (u : List Char) : Option String :=
  if containsSeq "LOW".data u || containsSeq "FIRST".data u || containsSeq "BOTTOM".data u then
    some "Q1"
  else if containsSeq "SECOND".data u then some "Q2"
  else if containsSeq "THIRD".data u then some "Q3"
  else if containsSeq "FOURTH".data u then some "Q4"
  else if containsSeq "HIGH".data u || containsSeq "FIFTH".data u || containsSeq "TOP".data u then
    some "Q5"
  else none

/-- `_canon_quintile` from src/sections/overview.py.  `none` input models a NaN
cell (`pd.isna`). -/
def canonQuintO (v : Option String) : Option String :=
  match v with
  | none => none
  | some s =>
    match quintExact (trimUpper s.data) with
    | some d => some (qLab d)
    | none =>
      match digit15 (trimUpper s.data) with
      | some d => some (qLab d)
      | none => canonKeyO (trimUpper s.data)

/-- The nested `_canon_quintile` from `_normalize_income` in
src/sections/deep_dives.py. -/
def canonQuintD (v : Option String) : Option String :=
  match v with
  | none => none
  | some s =>
    match quintExact (trimUpper s.data) with
    | some d => some (qLab d)
    | none =>
      match digit15 (trimUpper s.data) with
      | some d => some (qLab d)
      | none => canonKeyD (trimUpper s.data)

/-- An input on which the two keyword cascades cannot fire: its normalised form
contains none of the keyword substrings either cascade tests for. -/
def noKeyword (v : Option String) : Bool :=
  match v with
  | none => true
  | some s =>
    let u := trimUpper s.data
    !containsSeq "LOW".data u && !containsSeq "FIRST".data u && !containsSeq "BOTTOM".data u &&
    !containsSeq "SECOND".data u && !containsSeq "THIRD".data u && !containsSeq "FOURTH".data u &&
    !containsSeq "HIGH".data u && !containsSeq "FIFTH".data u && !containsSeq "TOP".data u

/-! ## Typed row model for the cleaned tables used by the section helpers -/

/-- A cleaned screening record (columns of interest only). -/
structure ScreenRow where
  country : String
  year : Option Int
  screening_rate : Option ℚ
deriving DecidableEq, Repr

/-- A cleaned mortality record. -/
structure MortRow where
  country : String
  year : Option Int
  age : String
  mortality_rate : Option ℚ
deriving DecidableEq, Repr

/-- A cleaned exam-by-income record (the quintile cell may be NaN or a raw or
canonical label). -/
structure IncRow where
  country : String
  year : Option Int
  age_group : String
  income_quintile : Option String
  exam_rate : Option ℚ
deriving DecidableEq, Repr

/-! ## Filter helpers (`_filter_years`, `_filter_countries`)

The same pandas code appears in src/sections/overview.py and
src/sections/conclusion.py; it is generic in the table, so the embedding is
polymorphic in the row type with an explicit year / country projection.
A `none` year (pd.NA) compares as false on both bounds and the row is dropped,
modelling masking with a nullable boolean. -/

/-- `_filter_years` from src/sections/overview.py (int bounds version), on a
table that has a `year` column. -/
def filterYears {α : Type} (yr : α → Option Int) (df : List α) (y0 y1 : Int) : List α :=
  df.filter (fun r =>
    match yr r with
    | some y => decide (y0 ≤ y) && decide (y ≤ y1)
    | none => false)

/-- `_filter_years` from src/sections/conclusion.py: optional bounds, no-op if
either bound is `None`. -/
def filterYearsC {α : Type} (yr : α → Option Int) (df : List α) (y0 y1 : Option Int) : List α :=
  match y0, y1 with
  | some a, some b =>
    df.filter (fun r =>
      match yr r with
      | some y => decide (a ≤ y) && decide (y ≤ b)
      | none => false)
  | _, _ => df

/-- `_filter_countries` (identical in overview.py and conclusion.py): keep rows
whose country is in the list; no-op when the list is empty. -/
def filterCountries {α : Type} (co : α → String) (df : List α) (countries : List String) : List α :=
  if countries.isEmpty then df
  else df.filter (fun r => countries.contains (co r))

/-! ## `_mortality_under50` (identical in overview.py and conclusion.py) -/

/-- The row mask of `_mortality_under50`: age contains `Y_LT` (case-insensitive),
or contains one of the band literals `Y0-4 | Y5-14 | Y15-24 | Y25-34 | Y35-44 |
Y45-49` (case-insensitive, unanchored), or equals the `TOTAL` sentinel exactly. -/
def under50Mask (a : String) : Bool :=
  containsSeq "Y_LT".data (upperL a.data)
  || ["Y0-4".data, "Y5-14".data, "Y15-24".data, "Y25-34".data,
      "Y35-44".data, "Y45-49".data].any (fun p => containsSeq p (upperL a.data))
  || decide (a = "TOTAL")

/-- `_mortality_under50` from src/sections/overview.py (and conclusion.py), on a
mortality table that has an `age` column. -/
def mortalityUnder50 (df : List MortRow) : List MortRow :=
  df.filter (fun r => under50Mask r.age)

/-! ## `_income_q1_q5_sub50` from src/sections/overview.py -/

/-- First age regex of `_income_q1_q5_sub50`:
`Y1?5-24|Y25-34|Y30-39|Y35-44|Y40-44|Y40-49|Y45-49|Y_GE16_LT50|Y_LT50`,
case-insensitive, unanchored (no word boundaries). -/
def sub50PatsA : List (List Char) :=
  ["Y15-24".data, "Y5-24".data, "Y25-34".data, "Y30-39".data, "Y35-44".data,
   "Y40-44".data, "Y40-49".data, "Y45-49".data, "Y_GE16_LT50".data, "Y_LT50".data]

/-- Second age regex of `_income_q1_q5_sub50`:
`\b(15-24|25-34|30-39|35-44|40-44|40-49|45-49)\b`, case-insensitive. -/
def sub50PatsB : List (List Char) :=
  ["15-24".data, "25-34".data, "30-39".data, "35-44".data, "40-44".data,
   "40-49".data, "45-49".data]

/-- The under-50 age-group mask of `_income_q1_q5_sub50`. -/
def sub50AgeMask (a : String) : Bool :=
  sub50PatsA.any (fun p => containsSeq p (upperL a.data))
  || searchBoth sub50PatsB (upperL a.data)

/-- Canonicalize the quintile cell of one row (the `.apply(_canon_quintile)`
step of `_income_q1_q5_sub50`). -/
def canonIncRow (r : IncRow) : IncRow :=
  { r with income_quintile := canonQuintO r.income_quintile }

/-- `_income_q1_q5_sub50` from src/sections/overview.py, on a table that has
both the `income_quintile` and `age_group` columns: canonicalize quintiles,
keep clearly-under-50 age groups, keep quintiles Q1 and Q5 only. -/
def incomeQ1Q5Sub50 (df : List IncRow) : List IncRow :=
  (((df.map canonIncRow).filter (fun r => sub50AgeMask r.age_group)).filter
    (fun r => [some "Q1", some "Q5"].contains r.income_quintile))

/-! ## Medians, means and the derived metrics -/

/-- Insert into a sorted list of rationals (ascending). -/
def insertQ (a : ℚ) : List ℚ → List ℚ
  | [] => [a]
  | b :: t => if a ≤ b then a :: b :: t else b :: insertQ a t

/-- Insertion sort on rationals. -/
def sortQ : List ℚ → List ℚ
  | [] => []
  | a :: t => insertQ a (sortQ t)

/-- The median of a list of (non-null) values, as pandas computes it: `none` on
the empty list (NaN), middle element for odd length, mean of the two middle
elements for even length. -/
def medianOpt (l : List ℚ) : Option ℚ :=
  match (sortQ l).length with
  | 0 => none
  | n + 1 =>
    if (n + 1) % 2 = 1 then some ((sortQ l).getD ((n + 1) / 2) 0)
    else some (((sortQ l).getD ((n + 1) / 2 - 1) 0 + (sortQ l).getD ((n + 1) / 2) 0) / 2)

/-- The mean of a list of (non-null) values: `none` on the empty list (NaN). -/
def meanOpt (l : List ℚ) : Option ℚ :=
  match l.length with
  | 0 => none
  | n + 1 => some (l.sum / (n + 1 : ℚ))

/-- Maximum of a list of integers (`Series.max` after dropna): `none` if empty. -/
def maxI : List Int → Option Int
  | [] => none
  | x :: t =>
    some (match maxI t with
          | none => x
          | some m => max x m)

/-- Minimum of a list of integers (`Series.min` after dropna): `none` if empty. -/
def minI : List Int → Option Int
  | [] => none
  | x :: t =>
    some (match minI t with
          | none => x
          | some m => min x m)

/-- The non-null years of a screening table (`df["year"].dropna()`). -/
def yearsOfS (df : List ScreenRow) : List Int := df.filterMap (fun r => r.year)

/-- The rows of a screening table at a given year (`df[df["year"].eq(y)]`). -/
def rowsAtYearS (df : List ScreenRow) (y : Int) : List ScreenRow :=
  df.filter (fun r => decide (r.year = some y))

/-- The non-null screening rates of a table (medians skip NaN). -/
def ratesOfS (df : List ScreenRow) : List ℚ := df.filterMap (fun r => r.screening_rate)

/-- The first-to-last delta of the screening KPI (render_overview, KPI 1):
median screening rate at the maximum year minus median at the minimum year;
`none` when either endpoint has no data. -/
def firstLastDelta (df : List ScreenRow) : Option ℚ :=
  match maxI (yearsOfS df), minI (yearsOfS df) with
  | some ly, some fy =>
    (match medianOpt (ratesOfS (rowsAtYearS df ly)), medianOpt (ratesOfS (rowsAtYearS df fy)) with
     | some a, some b => some (a - b)
     | _, _ => none)
  | _, _ => none

/-- The screening KPI value (render_overview, KPI 1): median screening rate at
the latest year of the (already filtered) table. -/
def scrKpi (df : List ScreenRow) : Option ℚ :=
  match maxI (yearsOfS df) with
  | some ly => medianOpt (ratesOfS (rowsAtYearS df ly))
  | none => none

/-- Round a nonnegative rational to the nearest integer, ties to even (the
rounding used when formatting with one decimal digit).  Stated on the numerator
and denominator so that it evaluates by integer arithmetic alone. -/
def roundHE (x : ℚ) : Int :=
  if 2 * (x.num - x.num / (x.den : Int) * (x.den : Int)) < (x.den : Int) then
    x.num / (x.den : Int)
  else if (x.den : Int) < 2 * (x.num - x.num / (x.den : Int) * (x.den : Int)) then
    x.num / (x.den : Int) + 1
  else if x.num / (x.den : Int) % 2 = 0 then x.num / (x.den : Int)
  else x.num / (x.den : Int) + 1

/-- Format a rational with one decimal digit, modelling Python `f"{x:.1f}"`. -/
def fmt1 (q : ℚ) : String :=
  let t := (roundHE |q * 10|).toNat
  (if q < 0 then "-" else "") ++ toString (t / 10) ++ "." ++ toString (t % 10)

/-- Format with an explicit sign, modelling Python `f"{x:+.1f}"`. -/
def fmtPlus1 (q : ℚ) : String :=
  let t := (roundHE |q * 10|).toNat
  (if q < 0 then "-" else "+") ++ toString (t / 10) ++ "." ++ toString (t % 10)

/-- The screening KPI text (render_overview, KPI 1): the latest-year median
formatted with one decimal. -/
def scrKpiText (df : List ScreenRow) : Option String :=
  (scrKpi df).map fmt1

/-- The screening KPI delta text (render_overview, KPI 1):
`f"{latest_median - base_median:+.1f} vs {first_year}"`. -/
def scrDeltaText (df : List ScreenRow) : Option String :=
  match maxI (yearsOfS df), minI (yearsOfS df) with
  | some ly, some fy =>
    (match medianOpt (ratesOfS (rowsAtYearS df ly)), medianOpt (ratesOfS (rowsAtYearS df fy)) with
     | some a, some b => some (fmtPlus1 (a - b) ++ " vs " ++ toString fy)
     | _, _ => none)
  | _, _ => none

/-- The guarded difference of the two quintile medians (`pd.notna(q5) and
pd.notna(q1)` before subtracting). -/
def gapCombine : Option ℚ → Option ℚ → Option ℚ
  | some q5, some q1 => some (q5 - q1)
  | _, _ => none

/-- The income-gap metric (render_overview, KPI 3, restricted to a given year):
median exam rate of the Q5 rows of that year minus the median of the Q1 rows;
`none` (rendered as an empty metric) when either median is unavailable. -/
def incomeGap (df : List IncRow) (y : Int) : Option ℚ :=
  gapCombine
    (medianOpt (((df.filter (fun r => decide (r.year = some y))).filter
      (fun r => decide (r.income_quintile = some "Q5"))).filterMap (fun r => r.exam_rate)))
    (medianOpt (((df.filter (fun r => decide (r.year = some y))).filter
      (fun r => decide (r.income_quintile = some "Q1"))).filterMap (fun r => r.exam_rate)))

/-! ## The under-50 mortality share (deep_dives.py, tab 2 and `_panel_for_year`)

The code filters the mortality table into the sub-50 band rows and the `TOTAL`
rows, takes the group-wise mean mortality per `(country, year)`, inner-joins the
two group tables and divides.  The embedding builds the same joined panel and a
lookup into it. -/

/-- The sub-50 age regex of deep_dives.py:
`(Y_LT|Y0-4|Y5-14|Y15-24|Y25-34|Y35-44|Y45-49)`, case-insensitive, unanchored. -/
def under50DeepMask (a : String) : Bool :=
  ["Y_LT".data, "Y0-4".data, "Y5-14".data, "Y15-24".data, "Y25-34".data,
   "Y35-44".data, "Y45-49".data].any (fun p => containsSeq p (upperL a.data))

/-- The sub-50 band rows (`under` in the source). -/
def underTab (df : List MortRow) : List MortRow :=
  df.filter (fun r => under50DeepMask r.age)

/-- The `TOTAL` sentinel rows (`total` in the source). -/
def totalTab (df : List MortRow) : List MortRow :=
  df.filter (fun r => decide (r.age = "TOTAL"))

/-- The `(country, year)` group key of a mortality row; `none` when the year is
NA (pandas `groupby` drops NA keys). -/
def rowKey (r : MortRow) : Option (String × Int) :=
  r.year.map (fun y => (r.country, y))

/-- Remove duplicate keys (the distinct groupby keys; which occurrence survives
is irrelevant downstream, every occurrence of a key carries the same group). -/
def eraseDupK : List (String × Int) → List (String × Int)
  | [] => []
  | k :: t => if k ∈ t then eraseDupK t else k :: eraseDupK t

/-- The group keys of a table (pandas groupby keys). -/
def keysOf (df : List MortRow) : List (String × Int) :=
  eraseDupK (df.filterMap rowKey)

/-- The non-null mortality rates of the rows in a given group. -/
def ratesAt (df : List MortRow) (k : String × Int) : List ℚ :=
  df.filterMap (fun r => if rowKey r = some k then r.mortality_rate else none)

/-- The group-wise mean (`groupby(["country","year"]).mean()`, NaN-skipping): the
mean of the group's non-null rates, `none` when there are none. -/
def groupMeanAt (df : List MortRow) (k : String × Int) : Option ℚ :=
  meanOpt (ratesAt df k)

/-- `share_u50 = mort_u50 / mort_total * 100`, propagating NaN. -/
def shareCombine : Option ℚ → Option ℚ → Option ℚ
  | some a, some b => some (a / b * 100)
  | _, _ => none

/-- The inner-joined share panel: one entry per group key of the sub-50 table
that also occurs in the `TOTAL` table, carrying the share value. -/
def mergedU50 (df : List MortRow) : List ((String × Int) × Option ℚ) :=
  (keysOf (underTab df)).filterMap (fun k =>
    if k ∈ keysOf (totalTab df) then
      some (k, shareCombine (groupMeanAt (underTab df) k) (groupMeanAt (totalTab df) k))
    else none)

/-- The share of the panel at a given `(country, year)`, `none` when the pair
has no (non-NaN) entry. -/
def shareLookup (df : List MortRow) (c : String) (y : Int) : Option ℚ :=
  match (mergedU50 df).find? (fun p => decide (p.1 = (c, y))) with
  | some p => p.2
  | none => none

/-! ## Raw-table model of the prep.py cleaners

The three cleaning functions of src/utils/prep.py operate on the freshly loaded
CSV, whose column set is whatever the file provides.  The embedding uses a
dynamic column list; pandas operations that look a column up (`df[col]`,
boolean-mask filters, `dropna(subset=...)`, dtype coercions, column selection)
raise `KeyError` when it is absent, so they return `Except`; `drop(...,
errors='ignore')` and `rename` are total. -/

/-- A CSV cell: string, numeric, or missing. -/
inductive Val where
  | vstr (s : String)
  | vnum (q : ℚ)
  | vna
deriving DecidableEq, Repr

/-- A raw table: the column list and the rows as association lists. -/
structure RawTable where
  cols : List String
  rows : List (List (String × Val))
deriving DecidableEq, Repr

/-- Cell lookup inside a row; a missing key reads as NaN. -/
def assocGet (c : String) : List (String × Val) → Val
  | [] => .vna
  | (k, v) :: t => if k = c then v else assocGet c t

/-- Python `str(value)` as pandas `astype(str)` applies it per cell. -/
def pyStr (v : Val) : String :=
  match v with
  | .vstr s => s
  | .vnum q => toString q
  | .vna => "nan"

/-- `df.drop(columns=names, errors='ignore')`: total, absent names are ignored. -/
def dropColsT (names : List String) (t : RawTable) : RawTable :=
  { cols := t.cols.filter (fun c => !decide (c ∈ names)),
    rows := t.rows.map (fun r => r.filter (fun p => !decide (p.1 ∈ names))) }

/-- `df[df[c] == s]`: raises `KeyError` when column `c` is absent, otherwise
keeps the rows whose cell equals the string exactly (NaN and numbers compare
unequal). -/
def filterEqStr (c s : String) (t : RawTable) : Except String RawTable :=
  if c ∈ t.cols then
    .ok { t with rows := t.rows.filter (fun r => decide (assocGet c r = .vstr s)) }
  else .error ("KeyError: " ++ c)

/-- `df[df[c].astype(str).str.upper().str.contains(sub, na=False)]`: raises
`KeyError` when the column is absent, otherwise keeps rows whose stringified,
upper-cased cell contains `sub`. -/
def filterContainsUp (c sub : String) (t : RawTable) : Except String RawTable :=
  if c ∈ t.cols then
    .ok { t with rows := t.rows.filter (fun r => containsSeq sub.data (upperL (pyStr (assocGet c r)).data)) }
  else .error ("KeyError: " ++ c)

/-- Apply a rename mapping to one column name (`df.rename(columns=...)` renames
the names that occur in the mapping and leaves the rest). -/
def renName : List (String × String) → String → String
  | [], k => k
  | (a, b) :: t, k => if k = a then b else renName t k

/-- `df.rename(columns=mapping)`: total. -/
def renameT (m : List (String × String)) (t : RawTable) : RawTable :=
  { cols := t.cols.map (renName m),
    rows := t.rows.map (fun r => r.map (fun p => (renName m p.1, p.2))) }

/-- `df[names]` column selection: raises `KeyError` when any requested column is
absent. -/
def selectColsT (names : List String) (t : RawTable) : Except String RawTable :=
  if names.all (fun c => decide (c ∈ t.cols)) then
    .ok { cols := names, rows := t.rows.map (fun r => names.map (fun c => (c, assocGet c r))) }
  else .error "KeyError: missing columns"

/-- `df.dropna(subset=[c])`: raises `KeyError` when the column is absent. -/
def dropnaSubsetT (c : String) (t : RawTable) : Except String RawTable :=
  if c ∈ t.cols then
    .ok { t with rows := t.rows.filter (fun r => !decide (assocGet c r = .vna)) }
  else .error ("KeyError: " ++ c)

/-- Digits of an unsigned decimal integer, strictly. -/
def digitsVal : List Char → Nat → Option Nat
  | [], acc => some acc
  | c :: t, acc =>
    if c.isDigit then digitsVal t (acc * 10 + (c.toNat - '0'.toNat)) else none

/-- Parse a nonempty digit string. -/
def parseNat (l : List Char) : Option Nat :=
  match l with
  | [] => none
  | _ => digitsVal l 0

/-- Parse an unsigned decimal literal (`123` or `123.45`). -/
def parseUnsigned (l : List Char) : Option ℚ :=
  match l.dropWhile (fun c => !decide (c = '.')) with
  | [] => (parseNat l).map (fun n => (n : ℚ))
  | _ :: t =>
    if t.any (fun c => decide (c = '.')) then none
    else
      match parseNat (l.takeWhile (fun c => !decide (c = '.'))), parseNat t with
      | some n, some f => some ((n : ℚ) + (f : ℚ) / ((10 : ℚ) ^ t.length))
      | _, _ => none

/-- Parse a signed decimal literal, the strings `pd.to_numeric` accepts here. -/
def parseNumQ (l : List Char) : Option ℚ :=
  match l with
  | '-' :: t => (parseUnsigned t).map (fun q => -q)
  | '+' :: t => parseUnsigned t
  | _ => parseUnsigned l

/-- Parse a signed integer literal, as Python `int(str)` accepts. -/
def parseIntPy (l : List Char) : Option Int :=
  match l with
  | '-' :: t => (parseNat t).map (fun n => -(n : Int))
  | '+' :: t => (parseNat t).map (fun n => (n : Int))
  | _ => (parseNat l).map (fun n => (n : Int))

/-- Truncate a rational toward zero, as a numpy float-to-int cast does. -/
def truncQ (q : ℚ) : Int := if q < 0 then -((-q).floor) else q.floor

/-- `df[c].astype(int)`: raises `KeyError` when the column is absent, raises on
NaN or a non-integer string, truncates floats. -/
def astypeIntT (c : String) (t : RawTable) : Except String RawTable :=
  if c ∈ t.cols then
    (t.rows.mapM (fun (r : List (String × Val)) => r.mapM (fun (p : String × Val) =>
      if p.1 = c then
        match p.2 with
        | .vnum q => Except.ok (p.1, Val.vnum ((truncQ q : Int) : ℚ))
        | .vstr s =>
          (match parseIntPy s.data with
           | some n => Except.ok (p.1, Val.vnum (n : ℚ))
           | none => Except.error "ValueError: invalid literal for int")
        | .vna => Except.error "ValueError: cannot convert NaN to integer"
      else Except.ok p))).map (fun rs => { t with rows := rs })
  else .error ("KeyError: " ++ c)

/-- `pd.to_numeric(df[c], errors='coerce')` written back to the column: raises
`KeyError` when the column is absent; unparseable values become NaN. -/
def toNumericCoerceT (c : String) (t : RawTable) : Except String RawTable :=
  if c ∈ t.cols then
    .ok { t with rows := t.rows.map (fun r => r.map (fun p =>
      if p.1 = c then
        (p.1,
         match p.2 with
         | .vnum q => Val.vnum q
         | .vstr s => (match parseNumQ s.data with
                       | some q => Val.vnum q
                       | none => Val.vna)
         | .vna => Val.vna)
      else p)) }
  else .error ("KeyError: " ++ c)

/-- `pd.to_numeric(df[c], errors='coerce').astype('Int64')`: raises `KeyError`
when the column is absent, keeps NA, raises on a non-integral float. -/
def toNumInt64T (c : String) (t : RawTable) : Except String RawTable :=
  if c ∈ t.cols then
    (t.rows.mapM (fun (r : List (String × Val)) => r.mapM (fun (p : String × Val) =>
      if p.1 = c then
        match p.2 with
        | .vnum q =>
          if q.den = 1 then Except.ok (p.1, Val.vnum q)
          else Except.error "TypeError: cannot safely cast non-equivalent float"
        | .vstr s =>
          (match parseNumQ s.data with
           | some q =>
             if q.den = 1 then Except.ok (p.1, Val.vnum q)
             else Except.error "TypeError: cannot safely cast non-equivalent float"
           | none => Except.ok (p.1, Val.vna))
        | .vna => Except.ok (p.1, Val.vna)
      else Except.ok p))).map (fun rs => { t with rows := rs })
  else .error ("KeyError: " ++ c)

/-- Lexicographic comparison of char lists (sort key comparison). -/
def charListLe : List Char → List Char → Bool
  | [], _ => true
  | _ :: _, [] => false
  | a :: s, b :: t =>
    if a = b then charListLe s t else decide (a.toNat ≤ b.toNat)

/-- Row comparison by a list of sort-key columns, lexicographically on the
stringified cells. -/
def keyLe (ks : List String) (r1 r2 : List (String × Val)) : Bool :=
  match ks with
  | [] => true
  | k :: t =>
    if pyStr (assocGet k r1) = pyStr (assocGet k r2) then keyLe t r1 r2
    else charListLe (pyStr (assocGet k r1)).data (pyStr (assocGet k r2)).data

/-- Insertion step of the row sort. -/
def insertRowBy (le : List (String × Val) → List (String × Val) → Bool)
    (a : List (String × Val)) : List (List (String × Val)) → List (List (String × Val))
  | [] => [a]
  | b :: t => if le a b then a :: b :: t else b :: insertRowBy le a t

/-- Insertion sort of the rows. -/
def sortRowsBy (le : List (String × Val) → List (String × Val) → Bool) :
    List (List (String × Val)) → List (List (String × Val))
  | [] => []
  | a :: t => insertRowBy le a (sortRowsBy le t)

/-- `df.sort_values(by=ks).reset_index(drop=True)`. -/
def sortResetT (ks : List String) (t : RawTable) : RawTable :=
  { t with rows := sortRowsBy (keyLe ks) t.rows }

/-- The metadata columns dropped first by all three cleaners. -/
def metaCols : List String := ["DATAFLOW", "LAST UPDATE", "freq", "CONF_STATUS", "OBS_FLAG"]

/-- `clean_screening` from src/utils/prep.py (after the CSV load): drop metadata
columns, keep `icd10 == 'C50'`, keep `source == 'PRG'`, rename, select, coerce
year and rate, sort. -/
def clean_screening (t : RawTable) : Except String RawTable :=
  (filterEqStr "icd10" "C50" (dropColsT metaCols t)).bind fun t2 =>
  (filterEqStr "source" "PRG" t2).bind fun t3 =>
  (selectColsT ["country", "year", "unit", "source", "icd10", "screening_rate"]
    (renameT [("geo", "country"), ("TIME_PERIOD", "year"), ("OBS_VALUE", "screening_rate")] t3)).bind fun t4 =>
  (astypeIntT "year" t4).bind fun t5 =>
  (toNumericCoerceT "screening_rate" t5).bind fun t6 =>
  .ok (sortResetT ["country", "year"] t6)

/-- `clean_mortality` from src/utils/prep.py: drop metadata columns, keep rows
whose sex contains `F`, whose icd10 contains `C50`, rename, select, coerce year
(nullable Int64) and rate, sort. -/
def clean_mortality (t : RawTable) : Except String RawTable :=
  (filterContainsUp "sex" "F" (dropColsT metaCols t)).bind fun t2 =>
  (filterContainsUp "icd10" "C50" t2).bind fun t3 =>
  (selectColsT ["country", "year", "unit", "age", "sex", "icd10", "mortality_rate"]
    (renameT [("geo", "country"), ("TIME_PERIOD", "year"), ("OBS_VALUE", "mortality_rate")] t3)).bind fun t4 =>
  (toNumInt64T "year" t4).bind fun t5 =>
  (toNumericCoerceT "mortality_rate" t5).bind fun t6 =>
  .ok (sortResetT ["country", "year"] t6)

/-- `clean_exam_income` from src/utils/prep.py: drop metadata columns, drop rows
with a missing `OBS_VALUE`, rename, select, coerce year and rate, sort. -/
def clean_exam_income (t : RawTable) : Except String RawTable :=
  (dropnaSubsetT "OBS_VALUE" (dropColsT metaCols t)).bind fun t2 =>
  (selectColsT ["country", "year", "duration", "age_group", "income_quintile", "unit", "exam_rate"]
    (renameT [("geo", "country"), ("TIME_PERIOD", "year"), ("age", "age_group"),
              ("quant_inc", "income_quintile"), ("OBS_VALUE", "exam_rate")] t2)).bind fun t3 =>
  (astypeIntT "year" t3).bind fun t4 =>
  (toNumericCoerceT "exam_rate" t4).bind fun t5 =>
  .ok (sortResetT ["country", "income_quintile"] t5)

/-! ## Helper lemmas -/

theorem leadMatch_of_append (a b u : List Char) (h : leadMatch (a ++ b) u = true) :
    leadMatch a u = true := by
  induction a generalizing u with
  | nil => rfl
  | cons c a ih =>
    cases u with
    | nil => simp [leadMatch] at h
    | cons d u' =>
      simp only [List.cons_append, leadMatch, Bool.and_eq_true, decide_eq_true_eq] at h ⊢
      exact ⟨h.1, ih u' h.2⟩

theorem containsSeq_of_lead (w u : List Char) (h : leadMatch w u = true) :
    containsSeq w u = true := by
  cases u <;> simp [containsSeq, h]

theorem containsSeq_of_append (a b u : List Char) (h : containsSeq (a ++ b) u = true) :
    containsSeq a u = true := by
  induction u with
  | nil =>
    simp only [containsSeq] at h ⊢
    exact leadMatch_of_append a b [] h
  | cons c t ih =>
    simp only [containsSeq, Bool.or_eq_true] at h ⊢
    rcases h with h | h
    · exact Or.inl (leadMatch_of_append a b (c :: t) h)
    · exact Or.inr (ih h)

theorem searchEnd_imp (ws : List (List Char)) (u : List Char) (h : searchEnd ws u = true) :
    ∃ w ∈ ws, containsSeq w u = true := by
  induction u with
  | nil =>
    simp only [searchEnd, List.any_eq_true] at h
    obtain ⟨w, hw, hm⟩ := h
    simp only [endBoundMatch, Bool.and_eq_true] at hm
    exact ⟨w, hw, containsSeq_of_lead w [] hm.1⟩
  | cons c t ih =>
    simp only [searchEnd, Bool.or_eq_true, List.any_eq_true] at h
    rcases h with ⟨w, hw, hm⟩ | h
    · simp only [endBoundMatch, Bool.and_eq_true] at hm
      exact ⟨w, hw, containsSeq_of_lead w (c :: t) hm.1⟩
    · obtain ⟨w, hw, hc⟩ := ih h
      refine ⟨w, hw, ?_⟩
      simp [containsSeq, hc]

theorem searchBothAux_imp (ws : List (List Char)) (pw : Bool) (u : List Char)
    (h : searchBothAux ws pw u = true) : ∃ w ∈ ws, containsSeq w u = true := by
  induction u generalizing pw with
  | nil =>
    simp only [searchBothAux, Bool.and_eq_true, List.any_eq_true] at h
    obtain ⟨-, w, hw, hm⟩ := h
    simp only [endBoundMatch, Bool.and_eq_true] at hm
    exact ⟨w, hw, containsSeq_of_lead w [] hm.1⟩
  | cons c t ih =>
    simp only [searchBothAux, Bool.or_eq_true, Bool.and_eq_true, List.any_eq_true] at h
    rcases h with ⟨-, w, hw, hm⟩ | h
    · simp only [endBoundMatch, Bool.and_eq_true] at hm
      exact ⟨w, hw, containsSeq_of_lead w (c :: t) hm.1⟩
    · obtain ⟨w, hw, hc⟩ := ih (wordChar c) h
      refine ⟨w, hw, ?_⟩
      simp [containsSeq, hc]

theorem searchBoth_imp (ws : List (List Char)) (u : List Char) (h : searchBoth ws u = true) :
    ∃ w ∈ ws, containsSeq w u = true :=
  searchBothAux_imp ws false u h

theorem canonKey_agree (u : List Char)
    (hLOW : containsSeq "LOW".data u = false) (hFIRST : containsSeq "FIRST".data u = false)
    (hBOT : containsSeq "BOTTOM".data u = false) (hSEC : containsSeq "SECOND".data u = false)
    (hTHI : containsSeq "THIRD".data u = false) (hFOU : containsSeq "FOURTH".data u = false)
    (hHIGH : containsSeq "HIGH".data u = false) (hFIF : containsSeq "FIFTH".data u = false)
    (hTOP : containsSeq "TOP".data u = false) :
    canonKeyO u = canonKeyD u := by
  have h1 : searchEnd ["LOWEST".data, "FIRST".data, "BOTTOM".data] u = false := by
    cases hq : searchEnd ["LOWEST".data, "FIRST".data, "BOTTOM".data] u
    · rfl
    · exfalso
      obtain ⟨w, hw, hc⟩ := searchEnd_imp _ u hq
      simp only [List.mem_cons, List.not_mem_nil, or_false] at hw
      rcases hw with rfl | rfl | rfl
      · have : containsSeq ("LOW".data ++ "EST".data) u = true := hc
        rw [containsSeq_of_append _ _ _ this] at hLOW
        exact Bool.true_eq_false.mp hLOW
      · rw [hc] at hFIRST; exact Bool.true_eq_false.mp hFIRST
      · rw [hc] at hBOT; exact Bool.true_eq_false.mp hBOT
  have h2 : searchBoth ["SECOND".data] u = false := by
    cases hq : searchBoth ["SECOND".data] u
    · rfl
    · exfalso
      obtain ⟨w, hw, hc⟩ := searchBoth_imp _ u hq
      simp only [List.mem_cons, List.not_mem_nil, or_false] at hw
      rcases hw with rfl
      rw [hc] at hSEC; exact Bool.true_eq_false.mp hSEC
  have h3 : searchBoth ["THIRD".data] u = false := by
    cases hq : searchBoth ["THIRD".data] u
    · rfl
    · exfalso
      obtain ⟨w, hw, hc⟩ := searchBoth_imp _ u hq
      simp only [List.mem_cons, List.not_mem_nil, or_false] at hw
      rcases hw with rfl
      rw [hc] at hTHI; exact Bool.true_eq_false.mp hTHI
  have h4 : searchBoth ["FOURTH".data] u = false := by
    cases hq : searchBoth ["FOURTH".data] u
    · rfl
    · exfalso
      obtain ⟨w, hw, hc⟩ := searchBoth_imp _ u hq
      simp only [List.mem_cons, List.not_mem_nil, or_false] at hw
      rcases hw with rfl
      rw [hc] at hFOU; exact Bool.true_eq_false.mp hFOU
  have h5 : searchEnd ["HIGHEST".data, "FIFTH".data, "TOP".data] u = false := by
    cases hq : searchEnd ["HIGHEST".data, "FIFTH".data, "TOP".data] u
    · rfl
    · exfalso
      obtain ⟨w, hw, hc⟩ := searchEnd_imp _ u hq
      simp only [List.mem_cons, List.not_mem_nil, or_false] at hw
      rcases hw with rfl | rfl | rfl
      · have : containsSeq ("HIGH".data ++ "EST".data) u = true := hc
        rw [containsSeq_of_append _ _ _ this] at hHIGH
        exact Bool.true_eq_false.mp hHIGH
      · rw [hc] at hFIF; exact Bool.true_eq_false.mp hFIF
      · rw [hc] at hTOP; exact Bool.true_eq_false.mp hTOP
  simp [canonKeyO, canonKeyD, h1, h2, h3, h4, h5, hLOW, hFIRST, hBOT, hSEC, hTHI, hFOU,
    hHIGH, hFIF, hTOP]

theorem map_eq_self_of_id {α : Type} (f : α → α) (l : List α) (h : ∀ a ∈ l, f a = a) :
    l.map f = l := by
  induction l with
  | nil => rfl
  | cons a t ih =>
    simp only [List.map_cons, h a (List.mem_cons_self a t)]
    rw [ih (fun b hb => h b (List.mem_cons_of_mem a hb))]

theorem mem_eraseDupK (k : String × Int) (l : List (String × Int)) :
    k ∈ eraseDupK l ↔ k ∈ l := by
  induction l with
  | nil => simp [eraseDupK]
  | cons a t ih =>
    by_cases ha : a ∈ t
    · simp only [eraseDupK, if_pos ha, ih, List.mem_cons]
      constructor
      · exact Or.inr
      · rintro (rfl | h)
        · exact ha
        · exact h
    · simp [eraseDupK, if_neg ha, ih]

theorem groupMeanAt_of_no_row (df : List MortRow) (k : String × Int)
    (hnk : ∀ r ∈ df, rowKey r ≠ some k) : groupMeanAt df k = none := by
  have hrates : ratesAt df k = [] := by
    apply List.filterMap_eq_nil_iff.mpr
    intro r hr
    simp only [if_neg (hnk r hr)]
  simp [groupMeanAt, hrates, meanOpt]

theorem groupMeanAt_of_not_key (df : List MortRow) (k : String × Int)
    (h : k ∉ keysOf df) : groupMeanAt df k = none := by
  apply groupMeanAt_of_no_row
  intro r hr heq
  exact h ((mem_eraseDupK k _).mpr (List.mem_filterMap.mpr ⟨r, hr, heq⟩))

theorem shareCombine_none_left (x : Option ℚ) : shareCombine none x = none := by
  cases x <;> rfl

theorem shareCombine_none_right (x : Option ℚ) : shareCombine x none = none := by
  cases x <;> rfl

theorem find?_joined (l : List (String × Int)) (P : (String × Int) → Prop)
    [DecidablePred P] (g : (String × Int) → Option ℚ) (k : String × Int) :
    (l.filterMap (fun x => if P x then some (x, g x) else none)).find?
        (fun p => decide (p.1 = k)) =
      if k ∈ l ∧ P k then some (k, g k) else none := by
  induction l with
  | nil => simp
  | cons a t ih =>
    by_cases hPa : P a
    · simp only [List.filterMap_cons, if_pos hPa]
      by_cases hak : a = k
      · subst hak
        simp [List.find?, hPa]
      · rw [List.find?]
        have : (decide ((a, g a).1 = k)) = false := by simp [hak]
        rw [this, ih]
        by_cases hkt : k ∈ t
        · simp [hkt, Ne.symm hak]
        · simp [hkt, Ne.symm hak]
    · simp only [List.filterMap_cons, if_neg hPa]
      rw [ih]
      by_cases hak : a = k
      · subst hak
        simp [hPa]
      · simp [Ne.symm hak]

theorem quintExact_dig (u : List Char) (d : Char) (h : quintExact u = some d) :
    dig15 d = true := by
  unfold quintExact at h
  split at h
  · split at h
    · cases h; assumption
    · simp at h
  · split at h
    · cases h; assumption
    · simp at h
  · simp at h

theorem digit15_dig (u : List Char) (d : Char) (h : digit15 u = some d) :
    dig15 d = true := by
  unfold digit15 at h
  split at h
  · split at h
    · cases h; assumption
    · exact absurd h (by simp)
  · exact absurd h (by simp)

theorem canonKeyO_total (u : List Char) :
    canonKeyO u ∈ [none, some "Q1", some "Q2", some "Q3", some "Q4", some "Q5"] := by
  unfold canonKeyO
  split_ifs <;> simp

theorem canonKeyD_total (u : List Char) :
    canonKeyD u ∈ [none, some "Q1", some "Q2", some "Q3", some "Q4", some "Q5"] := by
  unfold canonKeyD
  split_ifs <;> simp

theorem qLab_total (d : Char) (h : dig15 d = true) :
    some (qLab d) ∈ [(none : Option String), some "Q1", some "Q2", some "Q3", some "Q4", some "Q5"] := by
  simp only [dig15, Bool.or_eq_true, decide_eq_true_eq] at h
  rcases h with ((((rfl | rfl) | rfl) | rfl) | rfl) <;> simp [qLab]

/-! ## Claim theorems -/

/-- Claim C2: both `_canon_quintile` functions are total and deterministic —
every input maps to exactly one of Q1..Q5 or null; the inputs "Q1", "1", "QU1"
and "Lowest income" all map to "Q1"; an unrecognized string maps to null; and
the first matching rule in the fixed order wins (e.g. "first second" hits the
Q1 keyword rule before the Q2 one). -/
theorem claim2_canon_quintile_total :
    (∀ v, canonQuintO v ∈ [none, some "Q1", some "Q2", some "Q3", some "Q4", some "Q5"])
    ∧ (∀ v, canonQuintD v ∈ [none, some "Q1", some "Q2", some "Q3", some "Q4", some "Q5"])
    ∧ canonQuintO (some "Q1") = some "Q1" ∧ canonQuintD (some "Q1") = some "Q1"
    ∧ canonQuintO (some "1") = some "Q1" ∧ canonQuintD (some "1") = some "Q1"
    ∧ canonQuintO (some "QU1") = some "Q1" ∧ canonQuintD (some "QU1") = some "Q1"
    ∧ canonQuintO (some "Lowest income") = some "Q1"
    ∧ canonQuintD (some "Lowest income") = some "Q1"
    ∧ canonQuintO (some "ABC") = none ∧ canonQuintD (some "ABC") = none
    ∧ canonQuintO (some "first second") = some "Q1"
    ∧ canonQuintD (some "first second") = some "Q1" := by
  refine ⟨?_, ?_, by decide, by decide, by decide, by decide, by decide, by decide,
    by decide, by decide, by decide, by decide, by decide, by decide⟩
  · intro v
    cases v with
    | none => simp [canonQuintO]
    | some s =>
      simp only [canonQuintO]
      cases hq : quintExact (trimUpper s.data) with
      | some d => exact qLab_total d (quintExact_dig _ d hq)
      | none =>
        cases hd : digit15 (trimUpper s.data) with
        | some d => exact qLab_total d (digit15_dig _ d hd)
        | none => exact canonKeyO_total _
  · intro v
    cases v with
    | none => simp [canonQuintD]
    | some s =>
      simp only [canonQuintD]
      cases hq : quintExact (trimUpper s.data) with
      | some d => exact qLab_total d (quintExact_dig _ d hq)
      | none =>
        cases hd : digit15 (trimUpper s.data) with
        | some d => exact qLab_total d (digit15_dig _ d hd)
        | none => exact canonKeyD_total _

/-- Claim C9, counterexample: the two canonicalizers disagree on the input
"HIGH" — the deep-dives one (substring test) maps it to Q5, the overview one
(word-boundary regex on HIGHEST) maps it to null. -/
theorem claim9_counterexample :
    canonQuintD (some "HIGH") = some "Q5" ∧ canonQuintO (some "HIGH") = none :=
  ⟨by decide, by decide⟩

/-- Claim C9 (amended): the two canonicalizers agree on every input whose
normalised form contains none of the keyword substrings LOW, FIRST, BOTTOM,
SECOND, THIRD, FOURTH, HIGH, FIFTH, TOP (in particular on all exact Q#/QU#
labels, digits and NaN); they differ only through the keyword rules. -/
theorem claim9_canons_agree (v : Option String) (h : noKeyword v = true) :
    canonQuintO v = canonQuintD v := by
  cases v with
  | none => rfl
  | some s =>
    simp only [noKeyword, Bool.and_eq_true, Bool.not_eq_true'] at h
    obtain ⟨⟨⟨⟨⟨⟨⟨⟨h1, h2⟩, h3⟩, h4⟩, h5⟩, h6⟩, h7⟩, h8⟩, h9⟩ := h
    simp only [canonQuintO, canonQuintD,
      canonKey_agree (trimUpper s.data) h1 h2 h3 h4 h5 h6 h7 h8 h9]

/-- Claim C9, witness: a concrete keyword-free input on which the amended
agreement theorem applies. -/
theorem claim9_witness :
    noKeyword (some "QU4") = true ∧ canonQuintO (some "QU4") = canonQuintD (some "QU4") :=
  ⟨by decide, claim9_canons_agree (some "QU4") (by decide)⟩

/-- Claim C3: for year bounds y0 ≤ y1, every row of `_filter_years` (both the
overview and the conclusion variant) has a year y with y0 ≤ y ≤ y1, and is a
row of the input table. -/
theorem claim3_filter_years {α : Type} (yr : α → Option Int) (df : List α) (y0 y1 : Int)
    (hle : y0 ≤ y1) (r : α) :
    (r ∈ filterYears yr df y0 y1 →
      ((∃ y, yr r = some y ∧ y0 ≤ y ∧ y ≤ y1) ∧ r ∈ df))
    ∧ (r ∈ filterYearsC yr df (some y0) (some y1) →
      ((∃ y, yr r = some y ∧ y0 ≤ y ∧ y ≤ y1) ∧ r ∈ df)) := by
  have _ := hle
  have main : r ∈ filterYears yr df y0 y1 → ((∃ y, yr r = some y ∧ y0 ≤ y ∧ y ≤ y1) ∧ r ∈ df) := by
    intro hm
    rw [filterYears, List.mem_filter] at hm
    obtain ⟨hdf, hp⟩ := hm
    refine ⟨?_, hdf⟩
    cases hy : yr r with
    | none => rw [hy] at hp; simp at hp
    | some y =>
      rw [hy] at hp
      simp only [Bool.and_eq_true, decide_eq_true_eq] at hp
      exact ⟨y, rfl, hp.1, hp.2⟩
  exact ⟨main, fun hm => main hm⟩

/-- Claim C3, witness: the row (FR, 2015, 30) survives filtering [FR,2015,30]
to the bounds (2010, 2020) and indeed has its year in bounds. -/
theorem claim3_witness :
    (∃ y, (⟨"FR", some 2015, some 30⟩ : ScreenRow).year = some y ∧ (2010 : Int) ≤ y ∧ y ≤ 2020)
    ∧ (⟨"FR", some 2015, some 30⟩ : ScreenRow) ∈ [(⟨"FR", some 2015, some 30⟩ : ScreenRow)] :=
  (claim3_filter_years (fun (r : ScreenRow) => r.year) [⟨"FR", some 2015, some 30⟩] 2010 2020
    (by norm_num) ⟨"FR", some 2015, some 30⟩).1 (by
      simp [filterYears])

/-- Claim C4: `_mortality_under50` keeps exactly the rows whose age label
matches one of the fixed sub-50 band patterns (or contains `Y_LT`) or equals
the TOTAL sentinel; a table with only a TOTAL row for a country/year keeps that
row, and a table with both an explicit under-50 band row and a TOTAL row keeps
both. -/
theorem claim4_under50_kept :
    (∀ (df : List MortRow) (r : MortRow),
      r ∈ mortalityUnder50 df ↔ (r ∈ df ∧ under50Mask r.age = true))
    ∧ (∀ (c : String) (y : Option Int) (q : Option ℚ),
      mortalityUnder50 [⟨c, y, "TOTAL", q⟩] = [⟨c, y, "TOTAL", q⟩])
    ∧ (∀ (c : String) (y : Option Int) (q1 q2 : Option ℚ),
      mortalityUnder50 [⟨c, y, "Y45-49", q1⟩, ⟨c, y, "TOTAL", q2⟩]
        = [⟨c, y, "Y45-49", q1⟩, ⟨c, y, "TOTAL", q2⟩]) := by
  refine ⟨?_, ?_, ?_⟩
  · intro df r
    simp [mortalityUnder50, List.mem_filter]
  · intro c y q
    simp [mortalityUnder50, List.filter, show under50Mask "TOTAL" = true from by decide]
  · intro c y q1 q2
    simp [mortalityUnder50, List.filter, show under50Mask "TOTAL" = true from by decide,
      show under50Mask "Y45-49" = true from by decide]

/-- Claim C8: `_filter_countries` is idempotent — filtering twice with the same
country set equals filtering once — and with the empty set it is a no-op. -/
theorem claim8_filter_countries_idem {α : Type} (co : α → String) (df : List α)
    (countries : List String) :
    filterCountries co (filterCountries co df countries) countries
      = filterCountries co df countries
    ∧ filterCountries co df [] = df := by
  constructor
  · by_cases hc : countries.isEmpty
    · simp [filterCountries, hc]
    · simp [filterCountries, hc, List.filter_filter]
  · simp [filterCountries]

/-- Claim C10: every row surviving `_income_q1_q5_sub50` has a canonical
quintile equal to Q1 or Q5 and an age group matching one of the fixed under-50
patterns, and is (the canonicalized image of) a row of the input table — no
other row survives. -/
theorem claim10_income_filter_invariant (df : List IncRow) (r : IncRow)
    (h : r ∈ incomeQ1Q5Sub50 df) :
    (r.income_quintile = some "Q1" ∨ r.income_quintile = some "Q5")
    ∧ sub50AgeMask r.age_group = true
    ∧ ∃ r0 ∈ df, r = canonIncRow r0 := by
  unfold incomeQ1Q5Sub50 at h
  rw [List.mem_filter] at h
  obtain ⟨h1, hquint⟩ := h
  rw [List.mem_filter] at h1
  obtain ⟨h2, hage⟩ := h1
  rw [List.mem_map] at h2
  obtain ⟨r0, hr0, hmap⟩ := h2
  refine ⟨?_, hage, r0, hr0, hmap.symm⟩
  simpa using hquint

/-- Claim C10, witness: the canonicalized row (FR, 2019, Y25-34, QU5, 50)
survives and satisfies the invariant. -/
theorem claim10_witness :
    ((canonIncRow ⟨"FR", some 2019, "Y25-34", some "QU5", some 50⟩).income_quintile = some "Q1"
      ∨ (canonIncRow ⟨"FR", some 2019, "Y25-34", some "QU5", some 50⟩).income_quintile = some "Q5")
    ∧ sub50AgeMask (canonIncRow ⟨"FR", some 2019, "Y25-34", some "QU5", some 50⟩).age_group = true
    ∧ ∃ r0 ∈ [(⟨"FR", some 2019, "Y25-34", some "QU5", some 50⟩ : IncRow)],
        canonIncRow ⟨"FR", some 2019, "Y25-34", some "QU5", some 50⟩ = canonIncRow r0 :=
  claim10_income_filter_invariant [⟨"FR", some 2019, "Y25-34", some "QU5", some 50⟩] _ (by
    simp [incomeQ1Q5Sub50, canonIncRow, List.filter,
      show sub50AgeMask "Y25-34" = true from by decide,
      show canonQuintO (some "QU5") = some "Q5" from by decide])

/-- Claim C5: the income-gap aggregate returns the Q5 median minus the Q1
median of the requested year; it is null whenever the Q1 side (or the Q5 side)
has no rows for that year; and on a year with Q5 median 42.0 and Q1 median
18.5 it returns 23.5. -/
theorem claim5_income_gap :
    (∀ (df : List IncRow) (y : Int),
      (∀ r ∈ df, ¬(r.year = some y ∧ r.income_quintile = some "Q1")) →
      incomeGap df y = none)
    ∧ (∀ (df : List IncRow) (y : Int),
      (∀ r ∈ df, ¬(r.year = some y ∧ r.income_quintile = some "Q5")) →
      incomeGap df y = none)
    ∧ incomeGap
        [⟨"FR", some 2019, "Y25-34", some "Q5", some 40⟩,
         ⟨"FR", some 2019, "Y25-34", some "Q5", some 44⟩,
         ⟨"FR", some 2019, "Y25-34", some "Q1", some 18⟩,
         ⟨"FR", some 2019, "Y25-34", some "Q1", some 19⟩,
         ⟨"FR", some 2018, "Y25-34", some "Q5", some 99⟩] 2019 = some (47 / 2) := by
  refine ⟨?_, ?_, ?_⟩
  · intro df y h
    have hfil : ((df.filter (fun r => decide (r.year = some y))).filter
        (fun r => decide (r.income_quintile = some "Q1"))) = [] := by
      apply List.filter_eq_nil_iff.mpr
      intro r hr
      rw [List.mem_filter] at hr
      obtain ⟨hrdf, hry⟩ := hr
      simp only [decide_eq_true_eq] at hry ⊢
      exact fun hq => h r hrdf ⟨hry, hq⟩
    unfold incomeGap
    rw [hfil]
    cases hq5 : medianOpt (((df.filter (fun r => decide (r.year = some y))).filter
        (fun r => decide (r.income_quintile = some "Q5"))).filterMap (fun r => r.exam_rate)) <;>
      rfl
  · intro df y h
    have hfil : ((df.filter (fun r => decide (r.year = some y))).filter
        (fun r => decide (r.income_quintile = some "Q5"))) = [] := by
      apply List.filter_eq_nil_iff.mpr
      intro r hr
      rw [List.mem_filter] at hr
      obtain ⟨hrdf, hry⟩ := hr
      simp only [decide_eq_true_eq] at hry ⊢
      exact fun hq => h r hrdf ⟨hry, hq⟩
    unfold incomeGap
    rw [hfil]
    rfl
  · norm_num [incomeGap, gapCombine, medianOpt, sortQ, insertQ]

/-- Claim C5, witness: a table with Q5 rows but no Q1 row at the requested year
yields a null gap. -/
theorem claim5_witness :
    incomeGap [⟨"FR", some 2019, "Y25-34", some "Q5", some 40⟩] 2019 = none :=
  claim5_income_gap.1 [⟨"FR", some 2019, "Y25-34", some "Q5", some 40⟩] 2019 (by
    intro r hr
    simp only [List.mem_singleton] at hr
    subst hr
    simp)

/-- Claim C6: the under-50 mortality share panel (groupby means, inner join,
ratio times 100) evaluated at any `(country, year)` equals the pointwise
formula — mean sub-50 rate over mean TOTAL rate times 100 — and is null
whenever the sub-50 side or the TOTAL side has no row for that pair, never
raising. -/
theorem claim6_under50_share :
    (∀ (df : List MortRow) (c : String) (y : Int),
      shareLookup df c y
        = shareCombine (groupMeanAt (underTab df) (c, y)) (groupMeanAt (totalTab df) (c, y)))
    ∧ (∀ (df : List MortRow) (c : String) (y : Int),
      (∀ r ∈ underTab df, rowKey r ≠ some (c, y)) → shareLookup df c y = none)
    ∧ (∀ (df : List MortRow) (c : String) (y : Int),
      (∀ r ∈ totalTab df, rowKey r ≠ some (c, y)) → shareLookup df c y = none) := by
  have main : ∀ (df : List MortRow) (c : String) (y : Int),
      shareLookup df c y
        = shareCombine (groupMeanAt (underTab df) (c, y)) (groupMeanAt (totalTab df) (c, y)) := by
    intro df c y
    unfold shareLookup mergedU50
    rw [find?_joined (keysOf (underTab df)) (fun k => k ∈ keysOf (totalTab df))
      (fun k => shareCombine (groupMeanAt (underTab df) k) (groupMeanAt (totalTab df) k)) (c, y)]
    by_cases hu : (c, y) ∈ keysOf (underTab df)
    · by_cases ht : (c, y) ∈ keysOf (totalTab df)
      · simp [hu, ht]
      · rw [if_neg (fun hand => ht hand.2)]
        rw [groupMeanAt_of_not_key _ _ ht, shareCombine_none_right]
    · rw [if_neg (fun hand => hu hand.1)]
      rw [groupMeanAt_of_not_key _ _ hu, shareCombine_none_left]
  refine ⟨main, ?_, ?_⟩
  · intro df c y h
    rw [main df c y, groupMeanAt_of_no_row _ _ h, shareCombine_none_left]
  · intro df c y h
    rw [main df c y, groupMeanAt_of_no_row _ _ h, shareCombine_none_right]

/-- Claim C6, witness: a table whose only row is a TOTAL row has an empty
sub-50 side, so the share at that country/year is null. -/
theorem claim6_witness :
    shareLookup [⟨"FR", some 2015, "TOTAL", some 40⟩] "FR" 2015 = none :=
  claim6_under50_share.2.1 [⟨"FR", some 2015, "TOTAL", some 40⟩] "FR" 2015 (by
    simp [underTab, List.filter, show under50DeepMask "TOTAL" = false from by decide])

/-- Claim C7: end-to-end — on the screening table {(FR,2010,30.0),
(FR,2020,55.0)} the first-to-last delta is +25.0, and after the country filter
{FR} and year range (2010, 2020) the screening KPI median at the latest year is
55.0, displayed as "55.0" with delta text "+25.0 vs 2010". -/
theorem claim7_end_to_end :
    firstLastDelta [⟨"FR", some 2010, some 30⟩, ⟨"FR", some 2020, some 55⟩] = some 25
    ∧ scrKpi (filterYears (fun r => r.year) (filterCountries (fun r => r.country)
        [⟨"FR", some 2010, some 30⟩, ⟨"FR", some 2020, some 55⟩] ["FR"]) 2010 2020) = some 55
    ∧ scrKpiText (filterYears (fun r => r.year) (filterCountries (fun r => r.country)
        [⟨"FR", some 2010, some 30⟩, ⟨"FR", some 2020, some 55⟩] ["FR"]) 2010 2020)
      = some "55.0"
    ∧ scrDeltaText (filterYears (fun r => r.year) (filterCountries (fun r => r.country)
        [⟨"FR", some 2010, some 30⟩, ⟨"FR", some 2020, some 55⟩] ["FR"]) 2010 2020)
      = some "+25.0 vs 2010" := by
  refine ⟨?_, ?_, ?_, ?_⟩
  · norm_num [firstLastDelta, yearsOfS, maxI, minI, rowsAtYearS, ratesOfS, medianOpt, sortQ,
      insertQ]
  · norm_num [scrKpi, filterYears, filterCountries, yearsOfS, maxI, rowsAtYearS, ratesOfS,
      medianOpt, sortQ, insertQ]
  · norm_num [scrKpiText, scrKpi, filterYears, filterCountries, yearsOfS, maxI, rowsAtYearS,
      ratesOfS, medianOpt, sortQ, insertQ, fmt1, roundHE]
    rfl
  · norm_num [scrDeltaText, filterYears, filterCountries, yearsOfS, maxI, minI, rowsAtYearS,
      ratesOfS, medianOpt, sortQ, insertQ, fmtPlus1, roundHE]
    rfl

/-- Claim C1, counterexample: `clean_screening` applied to a table without an
`icd10` column does not complete — the diagnosis-code filter raises a KeyError
instead of being a no-op. -/
theorem claim1_counterexample :
    clean_screening
      ⟨["geo", "TIME_PERIOD", "OBS_VALUE", "source", "unit"],
       [[("geo", .vstr "FR"), ("TIME_PERIOD", .vnum 2010), ("OBS_VALUE", .vnum 30),
         ("source", .vstr "PRG"), ("unit", .vstr "PC")]]⟩
      = .error "KeyError: icd10" := by rfl

/-- Claim C1 (amended): only the metadata-column drop is tolerant — it is a
no-op when those columns are absent — while the categorical inclusion filters
are not: `clean_screening` raises a KeyError when `icd10` is absent,
`clean_mortality` when `sex` is absent, and `clean_exam_income` when
`OBS_VALUE` is absent, instead of completing. -/
theorem claim1_cleaners_missing_columns :
    (∀ t : RawTable, (∀ c ∈ metaCols, c ∉ t.cols) → (∀ r ∈ t.rows, ∀ p ∈ r, p.1 ∈ t.cols) →
      dropColsT metaCols t = t)
    ∧ (∀ t : RawTable, "icd10" ∉ t.cols → clean_screening t = .error "KeyError: icd10")
    ∧ (∀ t : RawTable, "sex" ∉ t.cols → clean_mortality t = .error "KeyError: sex")
    ∧ (∀ t : RawTable, "OBS_VALUE" ∉ t.cols →
      clean_exam_income t = .error "KeyError: OBS_VALUE") := by
  refine ⟨?_, ?_, ?_, ?_⟩
  · intro t h1 h2
    obtain ⟨cols, rows⟩ := t
    simp only [dropColsT, RawTable.mk.injEq]
    constructor
    · apply List.filter_eq_self.mpr
      intro c hc
      simp only [Bool.not_eq_eq_eq_not, Bool.not_true, decide_eq_false_iff_not]
      exact fun hmem => h1 c hmem hc
    · apply map_eq_self_of_id
      intro r hr
      apply List.filter_eq_self.mpr
      intro p hp
      simp only [Bool.not_eq_eq_eq_not, Bool.not_true, decide_eq_false_iff_not]
      exact fun hmem => h1 p.1 hmem (h2 r hr p hp)
  · intro t h
    have hcols : "icd10" ∉ (dropColsT metaCols t).cols := by
      intro hm
      exact h (List.mem_filter.mp hm).1
    simp only [clean_screening, filterEqStr, if_neg hcols]
    rfl
  · intro t h
    have hcols : "sex" ∉ (dropColsT metaCols t).cols := by
      intro hm
      exact h (List.mem_filter.mp hm).1
    simp only [clean_mortality, filterContainsUp, if_neg hcols]
    rfl
  · intro t h
    have hcols : "OBS_VALUE" ∉ (dropColsT metaCols t).cols := by
      intro hm
      exact h (List.mem_filter.mp hm).1
    simp only [clean_exam_income, dropnaSubsetT, if_neg hcols]
    rfl

/-- Claim C1, witness: the tolerant drop is a no-op on a metadata-free table,
and each cleaner raises on a concrete table missing the filter's source
column. -/
theorem claim1_witness :
    dropColsT metaCols ⟨["geo"], [[("geo", .vstr "FR")]]⟩ = ⟨["geo"], [[("geo", .vstr "FR")]]⟩
    ∧ clean_screening ⟨["geo"], []⟩ = .error "KeyError: icd10"
    ∧ clean_mortality ⟨["geo"], []⟩ = .error "KeyError: sex"
    ∧ clean_exam_income ⟨["geo"], []⟩ = .error "KeyError: OBS_VALUE" :=
  ⟨claim1_cleaners_missing_columns.1 _ (by decide) (by decide),
   claim1_cleaners_missing_columns.2.1 _ (by decide),
   claim1_cleaners_missing_columns.2.2.1 _ (by decide),
   claim1_cleaners_missing_columns.2.2.2 _ (by decide)⟩
